import Mathlib

/-!
Shallow embedding of the go-server listener lifecycle subsystem
(timewasted/go-server).  The definitions below are translated from the
current sources: `listener.go` (bit-flag state machine, registry with
manage/unmanage/serve/shutdown/detach, DetachedListeners as an
address-to-descriptor map) and the current `server.go` (the `Server`
type with Listen / AddTLSCertificate / initialTLSConfiguration).  The
older package-level API (`ListenAndServeTLS` over a global listener
collection) is embedded separately in namespace `V1`.

Side effects of the Go code are made observable as explicit fields:
`served` counts how many times the registry started a listener's accept
loop (`go listener.serve(server)`), and `closeCount` counts invocations
of the underlying socket close (`listener.Close()`).  The session-ticket
key of a `tls.Config` is modelled as a 32-byte list; the Go runtime
populates it with random bytes at serve time, so concrete states below
may carry an arbitrary non-zero key.
-/

namespace GoServer

/-- States that a listener can be in, from listener.go.  `stateListening`
is `iota` = 0; the others are 1 shifted by their iota position. -/
def stateListening : Nat := 0

/-- Bit flag set while the listener's accept loop is running. -/
def stateServing : Nat := 2

/-- Bit flag set when shutdown of the listener has been requested. -/
def stateClosing : Nat := 4

/-- Bit flag set when the listener has been detached. -/
def stateDetached : Nat := 8

/-- A TLS certificate together with the DNS names it covers (the part of
`tls.Certificate` relevant to the name index). -/
structure Certificate where
  certId : Nat
  names : List String
  deriving Repr, DecidableEq

/-- The all-zeros 32-byte session ticket key: the value a fresh
`tls.Config{}` carries before the runtime generates a random key. -/
def zeroSessionTicketKey : List Nat := List.replicate 32 0

/-- Model of Go's `tls.Config` restricted to the fields this repository
reads or writes. -/
structure TLSConfig where
  certificates : List Certificate
  nameToCertificate : List (String × Nat)
  nextProtos : List String
  cipherSuites : List Nat
  preferServerCipherSuites : Bool
  sessionTicketsDisabled : Bool
  sessionTicketKey : List Nat
  deriving Repr, DecidableEq

/-- The zero value `tls.Config{}` used by `manage` and `reuse`. -/
def emptyTLSConfig : TLSConfig :=
  { certificates := []
  , nameToCertificate := []
  , nextProtos := []
  , cipherSuites := []
  , preferServerCipherSuites := false
  , sessionTicketsDisabled := false
  , sessionTicketKey := zeroSessionTicketKey }

/-- One managed listener (struct `listener` of listener.go).  `id` stands
for the Go pointer identity used by `unmanage`; `fd` is the underlying
socket descriptor that `detach` extracts reflectively. -/
structure Listener where
  id : Nat
  addr : String
  fd : Nat
  state : Nat
  tlsConfig : TLSConfig
  served : Nat
  closeCount : Nat
  deriving Repr, DecidableEq

/-- `listener.hasState`: true if the listener has ANY of the given states
(an OR check); a requested state equal to `stateListening` (= 0) always
matches. -/
def hasState (l : Listener) (states : List Nat) : Bool :=
  states.any (fun s => s == stateListening || l.state &&& s != 0)

/-- `listener.configureTLS` with a non-nil config: the configuration is
copied into the listener's config object. -/
def listenerConfigureTLS (l : Listener) (config : TLSConfig) : Listener :=
  { l with tlsConfig := config }

/-- `listener.tlsConfigured`: TLS counts as configured when the config
holds at least one certificate. -/
def tlsConfigured (l : Listener) : Bool :=
  l.tlsConfig.certificates.length > 0

/-- A network connection: either a raw accepted connection or one wrapped
by `tls.Server` with a given configuration. -/
inductive Conn where
  | raw (connId : Nat)
  | tls (c : Conn) (config : TLSConfig)
  deriving Repr, DecidableEq

/-- Errors visible at the accept boundary: the shutdown-requested
sentinel (`errShutdownRequested`) or an underlying network error. -/
inductive SrvError where
  | shutdownRequested
  | net (code : Nat)
  deriving Repr, DecidableEq

/-- `tls.Server`: wrap an accepted connection in a server-side TLS layer. -/
def tlsServer (c : Conn) (config : TLSConfig) : Conn :=
  Conn.tls c config

/-- `listener.Accept`, parametrised by the result of the underlying
`l.Listener.Accept()` call.  On an error, the shutdown sentinel replaces
the error exactly when the listener has state `stateClosing`; on success
the connection is TLS-wrapped exactly when TLS is configured. -/
def accept (l : Listener) (underlying : Except SrvError Conn) : Except SrvError Conn :=
  match underlying with
  | .error e => .error (if hasState l [stateClosing] then SrvError.shutdownRequested else e)
  | .ok c => .ok (if tlsConfigured l then tlsServer c l.tlsConfig else c)

/-- The collection of managed listeners (struct `listeners`): the tracked
list plus the `sync.WaitGroup` join counter. -/
structure Registry where
  listeners : List Listener
  wg : Int
  deriving Repr, DecidableEq

/-- The empty registry. -/
def Registry.empty : Registry := ⟨[], 0⟩

/-- A freshly created wrapper listener, as built by `manage` and `reuse`:
state `stateListening`, zero-value `tls.Config`. -/
def mkListener (id : Nat) (addr : String) (fd : Nat) : Listener :=
  { id := id, addr := addr, fd := fd, state := stateListening
  , tlsConfig := emptyTLSConfig, served := 0, closeCount := 0 }

/-- `listeners.manage`: append a new wrapper listener and `Add(1)` the
join counter. -/
def manage (r : Registry) (id : Nat) (addr : String) (fd : Nat) : Registry :=
  { listeners := r.listeners ++ [mkListener id addr fd], wg := r.wg + 1 }

/-- Index of the first element satisfying `p`, mirroring the linear scan
in `unmanage`. -/
def findIndex (p : Listener → Bool) : List Listener → Option Nat
  | [] => none
  | l :: rest => if p l then some 0 else (findIndex p rest).map (· + 1)

/-- The Go slice idiom used by `unmanage`:
`ls[len-1], ls[i], ls = nil, ls[len-1], ls[:len-1]` — position `i` is
overwritten with the last element and the slice is truncated by one. -/
def goSwapRemove (ls : List Listener) (i : Nat) : List Listener :=
  match ls.getLast? with
  | none => ls
  | some last => (ls.set i last).dropLast

/-- `listeners.unmanage`: remove the first listener with the given
identity (Go compares pointers; we compare `id`), swap-removing it and
calling `Done()`; a no-op when the listener is not tracked. -/
def unmanage (r : Registry) (id : Nat) : Registry :=
  match findIndex (fun li => li.id == id) r.listeners with
  | none => r
  | some i => { listeners := goSwapRemove r.listeners i, wg := r.wg - 1 }

/-- Per-listener body of `listeners.serve`: listeners that are serving or
closing are ignored; otherwise the serving bit is set and the accept
loop is started (`go listener.serve(server)`, counted by `served`). -/
def serveStep (l : Listener) : Listener :=
  if l.state &&& (stateServing ||| stateClosing) = 0 then
    { l with state := l.state ||| stateServing, served := l.served + 1 }
  else l

/-- `listeners.serve`: scan every tracked listener. -/
def listenersServe (r : Registry) : Registry :=
  { r with listeners := r.listeners.map serveStep }

/-- Per-listener body of `listeners.shutdown`: listeners already closing
are ignored; otherwise the closing bit is set and the socket is closed
(`listener.Close()`, counted by `closeCount`). -/
def shutdownStep (l : Listener) : Listener :=
  if l.state &&& stateClosing = 0 then
    { l with state := l.state ||| stateClosing, closeCount := l.closeCount + 1 }
  else l

/-- `listeners.shutdown`: scan every tracked listener.  (The `Close()`
calls spawn asynchronous `unmanage` goroutines, modelled separately by
`runUnmanages`; the graceful `Wait()` is a pure block.) -/
def listenersShutdown (r : Registry) : Registry :=
  { r with listeners := r.listeners.map shutdownStep }

/-- The asynchronous de-registrations triggered by `listener.Close`,
run in some order. -/
def runUnmanages (r : Registry) (ids : List Nat) : Registry :=
  ids.foldl unmanage r

/-- Per-listener body of `listeners.configureTLS`: listeners that are
serving or closing are ignored; the rest receive a copy of the config. -/
def configureTLSStep (config : TLSConfig) (l : Listener) : Listener :=
  if l.state &&& (stateServing ||| stateClosing) = 0 then
    listenerConfigureTLS l config
  else l

/-- `listeners.configureTLS`: scan every tracked listener. -/
def listenersConfigureTLS (r : Registry) (config : TLSConfig) : Registry :=
  { r with listeners := r.listeners.map (configureTLSStep config) }

/-- The entry `listeners.detach` records for one listener: listeners that
are closing are ignored; the rest contribute their address mapped to the
raw socket descriptor (extracted reflectively from `sysfd`). -/
def detachPair (l : Listener) : Option (String × Nat) :=
  if l.state &&& stateClosing = 0 then some (l.addr, l.fd) else none

/-- The state mutation `listeners.detach` applies to one listener:
non-closing listeners get the detached bit. -/
def detachStep (l : Listener) : Listener :=
  if l.state &&& stateClosing = 0 then
    { l with state := l.state ||| stateDetached }
  else l

/-- `listeners.detach`: the returned `DetachedListeners` address-to-fd
mapping, together with the updated registry. -/
def listenersDetach (r : Registry) : List (String × Nat) × Registry :=
  (r.listeners.filterMap detachPair, { r with listeners := r.listeners.map detachStep })

/-- `listeners.new`: bind a fresh socket on the address (outcome supplied
by the environment as `bindOk`/`fd`) and `manage` it. -/
def listenersNew (r : Registry) (bindOk : Bool) (id : Nat) (fd : Nat) (addr : String) :
    Except Unit Registry :=
  if bindOk then .ok (manage r id addr fd) else .error ()

/-- `listeners.reuse`: rebuild a listener from an inherited descriptor
(`net.FileListener` outcome supplied as `fileOk`).  Every tracked
listener whose address matches is replaced in place by a fresh wrapper
with a zero-value `tls.Config` (the join counter is NOT incremented for
replacements); if none matched, the new listener is `manage`d. -/
def reuse (r : Registry) (fileOk : Bool) (newId : Nat) (fd : Nat) (addr : String) :
    Except Unit Registry :=
  if fileOk then
    let fresh := mkListener newId addr fd
    if r.listeners.any (fun li => li.addr == addr) then
      .ok { r with listeners := r.listeners.map (fun li => if li.addr == addr then fresh else li) }
    else
      .ok (manage r newId addr fd)
  else .error ()

-- Cipher suite identifiers.  The first group reproduces the constants
-- defined in the current server.go head; the rest are the values of the
-- crypto/tls standard-library constants the configuration refers to.
def TLS_DHE_RSA_WITH_AES_128_CBC_SHA : Nat := 0x0033
def TLS_DHE_RSA_WITH_AES_256_CBC_SHA : Nat := 0x0039
def TLS_RSA_WITH_AES_128_GCM_SHA256 : Nat := 0x009c
def TLS_RSA_WITH_AES_256_GCM_SHA384 : Nat := 0x009d
def TLS_DHE_RSA_WITH_AES_128_GCM_SHA256 : Nat := 0x009e
def TLS_DHE_RSA_WITH_AES_256_GCM_SHA384 : Nat := 0x009f
def TLS_ECDHE_ECDSA_WITH_AES_128_CBC_SHA : Nat := 0xc009
def TLS_ECDHE_ECDSA_WITH_AES_256_CBC_SHA : Nat := 0xc00a
def TLS_ECDHE_ECDSA_WITH_AES_128_GCM_SHA256 : Nat := 0xc02b
def TLS_ECDHE_ECDSA_WITH_AES_256_GCM_SHA384 : Nat := 0xc02c
def TLS_ECDHE_RSA_WITH_AES_128_GCM_SHA256 : Nat := 0xc02f
def TLS_ECDHE_RSA_WITH_AES_256_GCM_SHA384 : Nat := 0xc030
def TLS_ECDHE_RSA_WITH_RC4_128_SHA : Nat := 0xc011
def TLS_ECDHE_RSA_WITH_AES_256_CBC_SHA : Nat := 0xc014
def TLS_ECDHE_RSA_WITH_AES_128_CBC_SHA : Nat := 0xc013
def TLS_RSA_WITH_RC4_128_SHA : Nat := 0x0005
def TLS_RSA_WITH_AES_256_CBC_SHA : Nat := 0x0035
def TLS_RSA_WITH_AES_128_CBC_SHA : Nat := 0x002f

/-- `Server.initialTLSConfiguration`: the base TLS configuration, with
the cipher-suite list exactly as written in the source. -/
def initialTLSConfiguration : TLSConfig :=
  { certificates := []
  , nameToCertificate := []
  , nextProtos := ["http/1.1"]
  , cipherSuites :=
      [ TLS_ECDHE_ECDSA_WITH_AES_256_GCM_SHA384
      , TLS_ECDHE_ECDSA_WITH_AES_128_GCM_SHA256
      , TLS_ECDHE_ECDSA_WITH_AES_256_CBC_SHA
      , TLS_ECDHE_ECDSA_WITH_AES_128_CBC_SHA
      , TLS_ECDHE_RSA_WITH_AES_256_GCM_SHA384
      , TLS_ECDHE_RSA_WITH_AES_128_GCM_SHA256
      , TLS_ECDHE_RSA_WITH_RC4_128_SHA
      , TLS_ECDHE_RSA_WITH_AES_256_CBC_SHA
      , TLS_ECDHE_RSA_WITH_AES_128_CBC_SHA
      , TLS_DHE_RSA_WITH_AES_256_GCM_SHA384
      , TLS_DHE_RSA_WITH_AES_128_GCM_SHA256
      , TLS_DHE_RSA_WITH_AES_256_CBC_SHA
      , TLS_DHE_RSA_WITH_AES_128_CBC_SHA
      , TLS_RSA_WITH_AES_256_GCM_SHA384
      , TLS_RSA_WITH_AES_128_GCM_SHA256
      , TLS_RSA_WITH_RC4_128_SHA
      , TLS_RSA_WITH_AES_256_CBC_SHA
      , TLS_RSA_WITH_AES_128_CBC_SHA ]
  , preferServerCipherSuites := true
  , sessionTicketsDisabled := false
  , sessionTicketKey := zeroSessionTicketKey }

/-- Model of crypto/tls `BuildNameToCertificate` (external collaborator):
an index from each certificate's DNS names to the certificate's position
in the list. -/
def buildNameToCertificate (certs : List Certificate) : List (String × Nat) :=
  (certs.enum.map (fun p => p.2.names.map (fun n => (n, p.1)))).flatten

/-- The `Server` type of the current server.go: server-level TLS config
(nil until a certificate is added), the listener registry, and the
address-to-descriptor map of reusable listeners. -/
structure Server where
  tls : Option TLSConfig
  listeners : Registry
  reuseListeners : List (String × Nat)
  deriving Repr, DecidableEq

/-- `Server.New`. -/
def Server.new : Server :=
  { tls := none, listeners := Registry.empty, reuseListeners := [] }

/-- `Server.ReuseListeners`: install a non-nil detach map. -/
def serverReuseListeners (s : Server) (m : List (String × Nat)) : Server :=
  { s with reuseListeners := m }

/-- `Server.Listen`: when the address appears in the reuse map, attempt
`listeners.reuse` with the recorded descriptor, falling back to a fresh
bind (after closing the descriptor) if reconstruction fails; otherwise
bind fresh via `listeners.new`. -/
def serverListen (s : Server) (fileOk bindOk : Bool) (newId bindFd : Nat) (addr : String) :
    Except Unit Server :=
  match s.reuseListeners.lookup addr with
  | some fd =>
    match reuse s.listeners fileOk newId fd addr with
    | .ok r => .ok { s with listeners := r }
    | .error _ =>
      (listenersNew s.listeners bindOk newId bindFd addr).map
        (fun r => { s with listeners := r })
  | none =>
    (listenersNew s.listeners bindOk newId bindFd addr).map
      (fun r => { s with listeners := r })

/-- `Server.addTLSCert`: initialise the server config if needed, append
the certificate, rebuild the name index, and push the configuration to
every listener that is not serving or closing. -/
def addTLSCert (s : Server) (cert : Certificate) : Server :=
  let t0 := s.tls.getD initialTLSConfiguration
  let t1 := { t0 with certificates := t0.certificates ++ [cert] }
  let t2 := { t1 with nameToCertificate := buildNameToCertificate t1.certificates }
  { s with tls := some t2, listeners := listenersConfigureTLS s.listeners t2 }

/-- `Server.AddTLSCertificate`, parametrised by the outcome of the
external `tls.X509KeyPair` parse: a parse error is returned unchanged,
otherwise `addTLSCert` runs and the call succeeds. -/
def addTLSCertificate (s : Server) (parsed : Except Nat Certificate) : Except Nat Server :=
  match parsed with
  | .error e => .error e
  | .ok cert => .ok (addTLSCert s cert)

/-- `Server.Serve`. -/
def serverServe (s : Server) : Server :=
  { s with listeners := listenersServe s.listeners }

/-- `Server.Detach`. -/
def serverDetach (s : Server) : List (String × Nat) × Server :=
  let (m, r) := listenersDetach s.listeners
  (m, { s with listeners := r })

end GoServer

namespace V1

/-!
Embedding of the older package-level API cited by C9: `server.go`'s
`ListenAndServeTLS` over the global `activeListeners` collection
(the watch/unwatch generation of listener.go).
-/

/-- A watched listener of the older generation, identified by its bind
address. -/
structure Listener where
  addr : String
  deriving Repr, DecidableEq

/-- The global `activeListeners` collection: watched listeners plus the
`sync.WaitGroup` join counter. -/
structure Registry where
  listeners : List Listener
  wg : Int
  deriving Repr, DecidableEq

/-- The empty collection. -/
def Registry.empty : Registry := ⟨[], 0⟩

/-- `listeners.watch`: append and `Add(1)`. -/
def watch (r : Registry) (l : Listener) : Registry :=
  { listeners := r.listeners ++ [l], wg := r.wg + 1 }

/-- Startup failures of `ListenAndServeTLS`. -/
inductive StartError where
  | certError (code : Nat)
  | bindError (addr : String)
  deriving Repr, DecidableEq

/-- The address loop of `ListenAndServeTLS`: each address is bound via
`newListener` (outcome supplied by `bind`); on success the listener is
watched (and its serve loop started); on the first failure the whole
call returns that bind error immediately, keeping the collection as it
stands. -/
def listenLoop (bind : String → Bool) : List String → Registry → Option StartError × Registry
  | [], r => (none, r)
  | addr :: rest, r =>
    if bind addr then listenLoop bind rest (watch r ⟨addr⟩)
    else (some (.bindError addr), r)

/-- `ListenAndServeTLS`: configure TLS first (outcome of the certificate
load supplied as `certLoad`), then run the address loop. -/
def listenAndServeTLS (certLoad : Except Nat Unit) (bind : String → Bool)
    (addrs : List String) (r : Registry) : Option StartError × Registry :=
  match certLoad with
  | .error e => (some (.certError e), r)
  | .ok _ => listenLoop bind addrs r

end V1

namespace GoServer

-- Spec-side cipher-suite groups (following the wording of §4.4 of the
-- specification), for comparison with the source configuration.

/-- Spec group: ECDHE+ECDSA AEAD suites. -/
def ecdheEcdsaAeadSuites : List Nat :=
  [TLS_ECDHE_ECDSA_WITH_AES_256_GCM_SHA384, TLS_ECDHE_ECDSA_WITH_AES_128_GCM_SHA256]

/-- Spec group: ECDHE+ECDSA CBC suites. -/
def ecdheEcdsaCbcSuites : List Nat :=
  [TLS_ECDHE_ECDSA_WITH_AES_256_CBC_SHA, TLS_ECDHE_ECDSA_WITH_AES_128_CBC_SHA]

/-- Spec group: ECDHE+RSA AEAD suites. -/
def ecdheRsaAeadSuites : List Nat :=
  [TLS_ECDHE_RSA_WITH_AES_256_GCM_SHA384, TLS_ECDHE_RSA_WITH_AES_128_GCM_SHA256]

/-- Spec group: ECDHE+RSA legacy stream/CBC fallback suites. -/
def ecdheRsaLegacySuites : List Nat :=
  [TLS_ECDHE_RSA_WITH_RC4_128_SHA, TLS_ECDHE_RSA_WITH_AES_256_CBC_SHA,
   TLS_ECDHE_RSA_WITH_AES_128_CBC_SHA]

/-- Spec group: DHE+RSA AEAD suites. -/
def dheRsaAeadSuites : List Nat :=
  [TLS_DHE_RSA_WITH_AES_256_GCM_SHA384, TLS_DHE_RSA_WITH_AES_128_GCM_SHA256]

/-- Spec group: DHE+RSA CBC suites. -/
def dheRsaCbcSuites : List Nat :=
  [TLS_DHE_RSA_WITH_AES_256_CBC_SHA, TLS_DHE_RSA_WITH_AES_128_CBC_SHA]

/-- Spec group: RSA AEAD suites. -/
def rsaAeadSuites : List Nat :=
  [TLS_RSA_WITH_AES_256_GCM_SHA384, TLS_RSA_WITH_AES_128_GCM_SHA256]

/-- Spec group: RSA legacy fallback suites. -/
def rsaLegacySuites : List Nat :=
  [TLS_RSA_WITH_RC4_128_SHA, TLS_RSA_WITH_AES_256_CBC_SHA, TLS_RSA_WITH_AES_128_CBC_SHA]

-- Concrete states used by counterexamples and witnesses.

/-- A sample non-zero session-ticket key, standing for the random key the
Go runtime generates for a serving TLS listener. -/
def keyA : List Nat := 1 :: List.replicate 31 0

/-- A sample certificate. -/
def sampleCert : Certificate := ⟨7, ["srv1.localhost"]⟩

/-- A configured listener before detach, with a runtime-generated
(non-zero) session-ticket key. -/
def preDetachListener : Listener :=
  { id := 0, addr := "127.0.0.1:44380", fd := 3, state := stateListening
  , tlsConfig := { emptyTLSConfig with certificates := [sampleCert], sessionTicketKey := keyA }
  , served := 0, closeCount := 0 }

/-- A server holding `preDetachListener`. -/
def preDetachServer : Server :=
  { tls := none, listeners := ⟨[preDetachListener], 1⟩, reuseListeners := [] }

/-- The listener `reuse` builds when reconstructing descriptor 3 for
`preDetachListener`'s address. -/
def reusedRegistry : Registry := ⟨[mkListener 10 "127.0.0.1:44380" 3], 1⟩

/-- A listener whose state is exactly `stateDetached`: detached from the
`Listening` state, never started serving, not closing. -/
def detachedOnlyListener : Listener :=
  { id := 1, addr := "127.0.0.1:44381", fd := 5, state := stateDetached
  , tlsConfig := emptyTLSConfig, served := 0, closeCount := 0 }

/-- A registry tracking only `detachedOnlyListener`. -/
def detachedOnlyRegistry : Registry := ⟨[detachedOnlyListener], 1⟩

/-- A listener that was serving when it was detached. -/
def detachedServingListener : Listener :=
  { id := 3, addr := "127.0.0.1:44383", fd := 7, state := stateDetached ||| stateServing
  , tlsConfig := emptyTLSConfig, served := 1, closeCount := 0 }

/-- A listener that is closing. -/
def closingListener : Listener :=
  { id := 4, addr := "127.0.0.1:44384", fd := 8, state := stateClosing
  , tlsConfig := emptyTLSConfig, served := 1, closeCount := 1 }

/-- A freshly bound listener, still only listening. -/
def listeningListener : Listener := mkListener 5 "127.0.0.1:44385" 9

/-- A listener with TLS configured (one certificate). -/
def tlsReadyListener : Listener :=
  { id := 6, addr := "127.0.0.1:44386", fd := 10, state := stateListening
  , tlsConfig := { emptyTLSConfig with certificates := [sampleCert] }
  , served := 0, closeCount := 0 }

/-- A listener that is currently serving connections. -/
def servingListener : Listener :=
  { id := 2, addr := "127.0.0.1:44382", fd := 6, state := stateServing
  , tlsConfig := emptyTLSConfig, served := 1, closeCount := 0 }

/-- A server whose only listener is serving. -/
def servingServer : Server :=
  { tls := none, listeners := ⟨[servingListener], 1⟩, reuseListeners := [] }

/-- The server-level TLS configuration after adding `sampleCert` to a
server with no prior configuration. -/
def expectedServingTLS : TLSConfig :=
  { initialTLSConfiguration with
      certificates := [sampleCert]
    , nameToCertificate := [("srv1.localhost", 0)] }

end GoServer

namespace V1

/-- A bind environment in which only the first test address binds
successfully. -/
def bind9 : String → Bool := fun a => a == "127.0.0.1:44380"

end V1


/-- Decidable equality for `Except`, so the executable definitions can be
evaluated at concrete inputs. -/
instance {ε α : Type} [DecidableEq ε] [DecidableEq α] : DecidableEq (Except ε α) := fun a b =>
  match a, b with
  | .error e, .error f =>
    if h : e = f then .isTrue (by rw [h]) else .isFalse (fun hc => h (by cases hc; rfl))
  | .error _, .ok _ => .isFalse (fun hc => Except.noConfusion hc)
  | .ok _, .error _ => .isFalse (fun hc => Except.noConfusion hc)
  | .ok x, .ok y =>
    if h : x = y then .isTrue (by rw [h]) else .isFalse (fun hc => h (by cases hc; rfl))

namespace GoServer

/-- Bitwise helper: masking a value that had `b` or-ed in by `b` itself
yields `b`. -/
theorem lor_and_self (a b : Nat) : (a ||| b) &&& b = b := by
  apply Nat.eq_of_testBit_eq
  intro i
  simp only [Nat.testBit_and, Nat.testBit_or]
  cases h : b.testBit i <;> simp [h]

/-- A found index is within bounds. -/
theorem findIndex_lt_length {p : Listener → Bool} :
    ∀ {ls : List Listener} {i : Nat}, findIndex p ls = some i → i < ls.length := by
  intro ls
  induction ls with
  | nil => intro i h; simp [findIndex] at h
  | cons a t ih =>
    intro i h
    by_cases hp : p a
    · simp [findIndex, hp] at h
      simp only [List.length_cons]
      omega
    · simp [findIndex, hp, Option.map_eq_some'] at h
      obtain ⟨j, hj, rfl⟩ := h
      have := ih hj
      simp only [List.length_cons]
      omega

/-- `findIndex` fails exactly when no element satisfies the test. -/
theorem findIndex_eq_none_iff {p : Listener → Bool} :
    ∀ {ls : List Listener}, findIndex p ls = none ↔ ∀ l ∈ ls, p l = false := by
  intro ls
  induction ls with
  | nil => simp [findIndex]
  | cons a t ih =>
    by_cases hp : p a <;> simp [findIndex, hp, ih]

/-- A satisfied element guarantees `findIndex` succeeds. -/
theorem findIndex_isSome_of_mem {p : Listener → Bool} {ls : List Listener} {l : Listener}
    (hmem : l ∈ ls) (hp : p l = true) : ∃ i, findIndex p ls = some i := by
  cases h : findIndex p ls with
  | none =>
    have := findIndex_eq_none_iff.mp h l hmem
    rw [hp] at this
    cases this
  | some i => exact ⟨i, rfl⟩

/-- Swap-removal at a valid index shortens the list by one. -/
theorem goSwapRemove_length {ls : List Listener} {i : Nat} (h : ls ≠ []) :
    (goSwapRemove ls i).length = ls.length - 1 := by
  unfold goSwapRemove
  cases hgl : ls.getLast? with
  | none =>
    rw [List.getLast?_eq_none_iff] at hgl
    exact absurd hgl h
  | some last => simp [List.length_dropLast, List.length_set]

/-- `unmanage` on a tracked identity removes one listener and decrements
the join counter by one. -/
theorem unmanage_of_mem {r : Registry} {id : Nat}
    (h : ∃ l ∈ r.listeners, l.id = id) :
    (unmanage r id).wg = r.wg - 1 ∧
    (unmanage r id).listeners.length = r.listeners.length - 1 := by
  obtain ⟨l, hmem, hid⟩ := h
  obtain ⟨i, hi⟩ :=
    @findIndex_isSome_of_mem (fun li => li.id == id) r.listeners l hmem (by simp [hid])
  have hne : r.listeners ≠ [] := by
    intro hnil
    rw [hnil] at hmem
    cases hmem
  simp [unmanage, hi, goSwapRemove_length hne]

/-- `unmanage` on an untracked identity is a no-op. -/
theorem unmanage_of_not_mem {r : Registry} {id : Nat}
    (h : ∀ l ∈ r.listeners, l.id ≠ id) : unmanage r id = r := by
  have : findIndex (fun li => li.id == id) r.listeners = none := by
    rw [findIndex_eq_none_iff]
    intro l hl
    simp [h l hl]
  simp [unmanage, this]

/-- One `unmanage` step preserves the counter-equals-length invariant. -/
theorem unmanage_invariant {r : Registry} (id : Nat)
    (h : r.wg = r.listeners.length) :
    (unmanage r id).wg = ((unmanage r id).listeners.length : Int) := by
  unfold unmanage
  cases hf : findIndex (fun li => li.id == id) r.listeners with
  | none => exact h
  | some i =>
    have hi := findIndex_lt_length hf
    have hne : r.listeners ≠ [] := by
      intro hnil
      rw [hnil] at hi
      simp at hi
    show r.wg - 1 = ((goSwapRemove r.listeners i).length : Int)
    rw [goSwapRemove_length hne]
    omega

/-- Any sequence of `unmanage` calls preserves the invariant. -/
theorem runUnmanages_invariant {r : Registry} {ids : List Nat}
    (h : r.wg = r.listeners.length) :
    (runUnmanages r ids).wg = ((runUnmanages r ids).listeners.length : Int) := by
  induction ids generalizing r with
  | nil => exact h
  | cons id rest ih => exact ih (unmanage_invariant id h)

/-- The shutdown scan step is idempotent per listener. -/
theorem shutdownStep_idem (l : Listener) : shutdownStep (shutdownStep l) = shutdownStep l := by
  by_cases h : l.state &&& stateClosing = 0
  · have h2 : ¬((l.state ||| stateClosing) &&& stateClosing = 0) := by
      rw [lor_and_self]
      decide
    simp only [shutdownStep, if_pos h, if_neg h2]
  · simp only [shutdownStep, if_neg h]

end GoServer

namespace GoServer

/-- C3: when the underlying accept fails while the listener's state
includes `Closing`, `Accept` returns the ShutdownRequested sentinel in
place of the underlying error; when the state does not include
`Closing`, the underlying error is returned unchanged. -/
theorem C3_accept_closing_sentinel (l : Listener) (e : SrvError) :
    (l.state &&& stateClosing ≠ 0 →
      accept l (.error e) = .error SrvError.shutdownRequested) ∧
    (l.state &&& stateClosing = 0 → accept l (.error e) = .error e) := by
  constructor
  · intro h
    simp only [stateClosing] at h
    simp [accept, hasState, stateClosing, stateListening, h]
  · intro h
    simp only [stateClosing] at h
    simp [accept, hasState, stateClosing, stateListening, h]

/-- Witness for C3 at concrete listeners: a closing listener turns a
network error into the sentinel; a merely listening one passes it through. -/
theorem C3_witness :
    accept closingListener (.error (.net 1)) = .error SrvError.shutdownRequested ∧
    accept listeningListener (.error (.net 1)) = .error (.net 1) :=
  ⟨(C3_accept_closing_sentinel closingListener (.net 1)).1 (by decide),
   (C3_accept_closing_sentinel listeningListener (.net 1)).2 (by decide)⟩

/-- C4: `manage` adds exactly one listener while incrementing the join
counter by exactly one; `unmanage` on a tracked listener removes one and
decrements exactly once, and is a no-op on an absent listener; both
preserve the counter-equals-tracked-count invariant. -/
theorem C4_join_counter_invariant (r : Registry) (id newId : Nat) (addr : String) (fd : Nat) :
    ((manage r newId addr fd).wg = r.wg + 1 ∧
      (manage r newId addr fd).listeners.length = r.listeners.length + 1) ∧
    ((∃ l ∈ r.listeners, l.id = id) →
      (unmanage r id).wg = r.wg - 1 ∧
      (unmanage r id).listeners.length = r.listeners.length - 1) ∧
    ((∀ l ∈ r.listeners, l.id ≠ id) → unmanage r id = r) ∧
    (r.wg = r.listeners.length →
      (manage r newId addr fd).wg = ((manage r newId addr fd).listeners.length : Int) ∧
      (unmanage r id).wg = ((unmanage r id).listeners.length : Int)) := by
  refine ⟨⟨rfl, by simp [manage]⟩, unmanage_of_mem, unmanage_of_not_mem, ?_⟩
  intro h
  refine ⟨?_, unmanage_invariant id h⟩
  simp [manage]
  omega

/-- Witness for C4: removing the only tracked listener empties the
registry, and an unknown identity leaves it untouched. -/
theorem C4_witness :
    (unmanage ⟨[mkListener 0 "a" 3], 1⟩ 0).listeners.length = 0 ∧
    unmanage ⟨[mkListener 0 "a" 3], 1⟩ 7 = ⟨[mkListener 0 "a" 3], 1⟩ ∧
    (manage ⟨[mkListener 0 "a" 3], 1⟩ 1 "b" 4).wg
      = ((manage ⟨[mkListener 0 "a" 3], 1⟩ 1 "b" 4).listeners.length : Int) :=
  ⟨((C4_join_counter_invariant ⟨[mkListener 0 "a" 3], 1⟩ 0 1 "b" 4).2.1
      ⟨mkListener 0 "a" 3, by decide, rfl⟩).2,
   (C4_join_counter_invariant ⟨[mkListener 0 "a" 3], 1⟩ 7 1 "b" 4).2.2.1 (by decide),
   ((C4_join_counter_invariant ⟨[mkListener 0 "a" 3], 1⟩ 0 1 "b" 4).2.2.2 (by decide)).1⟩

/-- C5: a second shutdown scan is the identity — every listener already
marked `Closing` is skipped and none is closed a second time — and the
join counter tracks the listener count (in particular never going
negative) through the de-registrations the scan triggers. -/
theorem C5_shutdown_idempotent (r : Registry) (ids : List Nat) :
    listenersShutdown (listenersShutdown r) = listenersShutdown r ∧
    (listenersShutdown (listenersShutdown r)).listeners.map Listener.closeCount
      = (listenersShutdown r).listeners.map Listener.closeCount ∧
    (∀ l, l.state &&& stateClosing ≠ 0 → shutdownStep l = l) ∧
    (r.wg = r.listeners.length →
      (runUnmanages (listenersShutdown r) ids).wg
        = ((runUnmanages (listenersShutdown r) ids).listeners.length : Int) ∧
      0 ≤ (runUnmanages (listenersShutdown r) ids).wg) := by
  have hscan : listenersShutdown (listenersShutdown r) = listenersShutdown r := by
    simp only [listenersShutdown, List.map_map]
    congr 1
    apply List.map_congr_left
    intro l _
    exact shutdownStep_idem l
  refine ⟨hscan, by rw [hscan], ?_, ?_⟩
  · intro l h
    simp only [shutdownStep, if_neg h]
  · intro h
    have h' : (listenersShutdown r).wg = (listenersShutdown r).listeners.length := by
      simpa [listenersShutdown] using h
    have hinv := @runUnmanages_invariant (listenersShutdown r) ids h'
    exact ⟨hinv, by rw [hinv]; positivity⟩

/-- Witness for C5 on a one-listener registry, including a duplicated
de-registration for the same listener. -/
theorem C5_witness :
    listenersShutdown (listenersShutdown detachedOnlyRegistry)
      = listenersShutdown detachedOnlyRegistry ∧
    (runUnmanages (listenersShutdown detachedOnlyRegistry) [1, 1]).wg
      = ((runUnmanages (listenersShutdown detachedOnlyRegistry) [1, 1]).listeners.length : Int) :=
  ⟨(C5_shutdown_idempotent detachedOnlyRegistry [1, 1]).1,
   ((C5_shutdown_idempotent detachedOnlyRegistry [1, 1]).2.2.2 (by decide)).1⟩

/-- C7: the TLS configuration built for listeners lists its cipher suites
in exactly the order ECDHE+ECDSA-AEAD, ECDHE+ECDSA-CBC, ECDHE+RSA-AEAD,
ECDHE+RSA legacy, DHE+RSA-AEAD, DHE+RSA-CBC, RSA-AEAD, RSA legacy, and
enforces the server's cipher preference. -/
theorem C7_cipher_suite_order :
    initialTLSConfiguration.cipherSuites =
      ecdheEcdsaAeadSuites ++ ecdheEcdsaCbcSuites ++ ecdheRsaAeadSuites ++
      ecdheRsaLegacySuites ++ dheRsaAeadSuites ++ dheRsaCbcSuites ++
      rsaAeadSuites ++ rsaLegacySuites ∧
    initialTLSConfiguration.preferServerCipherSuites = true := by
  constructor <;> rfl

/-- C10: a listener counts as TLS-configured exactly when its
configuration holds at least one certificate, and a successful accept
returns the connection raw when the certificate list is empty (and
TLS-wrapped otherwise). -/
theorem C10_tls_configured_iff_certs (l : Listener) (c : Conn) :
    (tlsConfigured l = true ↔ l.tlsConfig.certificates ≠ []) ∧
    (l.tlsConfig.certificates = [] → accept l (.ok c) = .ok c) ∧
    (l.tlsConfig.certificates ≠ [] → accept l (.ok c) = .ok (Conn.tls c l.tlsConfig)) := by
  refine ⟨?_, ?_, ?_⟩
  · simp [tlsConfigured, List.length_pos]
  · intro h
    simp [accept, tlsConfigured, h]
  · intro h
    have : 0 < l.tlsConfig.certificates.length := List.length_pos.mpr h
    simp [accept, tlsConfigured, tlsServer, this]

/-- Witness for C10: a certificate-less listener passes the raw
connection through; one holding a certificate wraps it. -/
theorem C10_witness :
    accept listeningListener (.ok (.raw 0)) = .ok (.raw 0) ∧
    accept tlsReadyListener (.ok (.raw 0)) = .ok (.tls (.raw 0) tlsReadyListener.tlsConfig) :=
  ⟨(C10_tls_configured_iff_certs listeningListener (.raw 0)).2.1 (by decide),
   (C10_tls_configured_iff_certs tlsReadyListener (.raw 0)).2.2 (by decide)⟩

end GoServer

namespace GoServer

/-- C1 counterexample: the detach map for `preDetachServer` records only
address and descriptor, and reconstructing through `Listen` with that
map yields a listener whose session-ticket key is the zero key, not the
non-zero pre-detach key. -/
theorem C1_counterexample :
    (serverDetach preDetachServer).fst = [("127.0.0.1:44380", 3)] ∧
    (serverListen
        (serverReuseListeners (serverDetach preDetachServer).snd
          (serverDetach preDetachServer).fst)
        true true 10 9 "127.0.0.1:44380").toOption.map
        (fun s => s.listeners.listeners.map (fun l => l.tlsConfig.sessionTicketKey))
      = some [zeroSessionTicketKey] ∧
    preDetachListener.tlsConfig.sessionTicketKey ≠ zeroSessionTicketKey := by
  decide

/-- C1 amended: the detach map records only each listener's address and
raw descriptor (no session-ticket key), and every listener reconstructed
through `reuse` carries a fresh zero-value TLS configuration, so its
session-ticket key is the zero key rather than the pre-detach key. -/
theorem C1_amended_reuse_fresh_config (r r' : Registry) (fileOk : Bool) (newId fd : Nat)
    (addr : String) (h : reuse r fileOk newId fd addr = .ok r') :
    (∀ p ∈ (listenersDetach r).fst, ∃ l, l ∈ r.listeners ∧ p = (l.addr, l.fd)) ∧
    ∀ l ∈ r'.listeners, l.addr = addr → l.tlsConfig = emptyTLSConfig := by
  constructor
  · intro p hp
    simp only [listenersDetach] at hp
    rw [List.mem_filterMap] at hp
    obtain ⟨l, hl, hpl⟩ := hp
    refine ⟨l, hl, ?_⟩
    unfold detachPair at hpl
    split at hpl
    · cases hpl
      rfl
    · cases hpl
  · intro l hl haddr
    unfold reuse at h
    by_cases hf : fileOk = true
    · rw [if_pos hf] at h
      by_cases hr : r.listeners.any (fun li => li.addr == addr) = true
      · rw [if_pos hr] at h
        cases h
        rw [List.mem_map] at hl
        obtain ⟨li, _, heq⟩ := hl
        by_cases hla : (li.addr == addr) = true
        · rw [if_pos hla] at heq
          rw [← heq]
          rfl
        · rw [if_neg hla] at heq
          rw [← heq] at haddr
          exact absurd (by simp [haddr]) hla
      · rw [if_neg hr] at h
        cases h
        simp only [manage, List.mem_append] at hl
        rcases hl with hl | hl
        · exfalso
          apply hr
          rw [List.any_eq_true]
          exact ⟨l, hl, by simp [haddr]⟩
        · simp only [List.mem_singleton] at hl
          rw [hl]
          rfl
    · rw [if_neg hf] at h
      cases h

end GoServer

namespace GoServer

/-- Witness for the amended C1: reconstructing descriptor 3 over the
detached listener's address yields the fresh registry, and the rebuilt
listener's TLS configuration is the zero value. -/
theorem C1_amended_witness :
    reuse ⟨[preDetachListener], 1⟩ true 10 3 "127.0.0.1:44380" = .ok reusedRegistry ∧
    (mkListener 10 "127.0.0.1:44380" 3).tlsConfig = emptyTLSConfig :=
  ⟨by decide,
   (C1_amended_reuse_fresh_config ⟨[preDetachListener], 1⟩ reusedRegistry true 10 3
      "127.0.0.1:44380" (by decide)).2 (mkListener 10 "127.0.0.1:44380" 3)
      (by decide) (by decide)⟩

/-- C2 counterexample: a listener detached from the `Listening` state
(state exactly `Detached`) is started by the next serve scan and its
socket is closed by the next shutdown scan. -/
theorem C2_counterexample :
    (listenersServe detachedOnlyRegistry).listeners.map Listener.served = [1] ∧
    (listenersShutdown detachedOnlyRegistry).listeners.map Listener.closeCount = [1] := by
  decide

/-- C2 amended: after a listener is marked `Detached`, a serve scan skips
it exactly when its state also includes `Serving` or `Closing`, and a
shutdown scan skips it exactly when its state includes `Closing`; the
`Detached` bit alone excludes it from neither scan. -/
theorem C2_amended_detached_scan_policy (l : Listener)
    (h : l.state &&& stateDetached ≠ 0) :
    (serveStep l = l ↔ l.state &&& (stateServing ||| stateClosing) ≠ 0) ∧
    (shutdownStep l = l ↔ l.state &&& stateClosing ≠ 0) := by
  constructor
  · by_cases hc : l.state &&& (stateServing ||| stateClosing) = 0
    · apply iff_of_false
      · intro heq
        have hs := congrArg Listener.served heq
        simp [serveStep, hc] at hs
      · exact fun hn => hn hc
    · exact iff_of_true (by simp [serveStep, hc]) hc
  · by_cases hc : l.state &&& stateClosing = 0
    · apply iff_of_false
      · intro heq
        have hs := congrArg Listener.closeCount heq
        simp [shutdownStep, hc] at hs
      · exact fun hn => hn hc
    · exact iff_of_true (by simp [shutdownStep, hc]) hc

/-- Witness for the amended C2: a detached listener that was serving is
skipped by the serve scan, while a detached-from-listening one is not
skipped by the shutdown scan. -/
theorem C2_amended_witness :
    serveStep detachedServingListener = detachedServingListener ∧
    shutdownStep detachedOnlyListener ≠ detachedOnlyListener :=
  ⟨(C2_amended_detached_scan_policy detachedServingListener (by decide)).1.mpr (by decide),
   fun heq => (by decide : ¬(detachedOnlyListener.state &&& stateClosing ≠ 0))
     ((C2_amended_detached_scan_policy detachedOnlyListener (by decide)).2.mp heq)⟩

/-- C6 counterexample: adding a certificate to a server whose only
listener is serving returns ok (no capability error) while that
listener's TLS configuration stays the zero value — the silent skip the
claim rules out. -/
theorem C6_counterexample :
    addTLSCertificate servingServer (.ok sampleCert) =
      .ok { tls := some expectedServingTLS
          , listeners := ⟨[servingListener], 1⟩
          , reuseListeners := [] } := by
  decide

/-- C6 amended: a successfully parsed certificate is always accepted
without error; the configuration scan silently skips every listener
whose state includes `Serving` or `Closing`, leaving that listener (and
its TLS configuration) unchanged while the server-level configuration is
still updated. -/
theorem C6_amended_silent_skip (s : Server) (cert : Certificate) (l : Listener)
    (hmem : l ∈ s.listeners.listeners)
    (hstate : l.state &&& (stateServing ||| stateClosing) ≠ 0) :
    addTLSCertificate s (.ok cert) = .ok (addTLSCert s cert) ∧
    (∀ config, configureTLSStep config l = l) ∧
    l ∈ (addTLSCert s cert).listeners.listeners := by
  have hskip : ∀ config, configureTLSStep config l = l := by
    intro config
    simp [configureTLSStep, hstate]
  refine ⟨rfl, hskip, ?_⟩
  simp only [addTLSCert, listenersConfigureTLS]
  exact List.mem_map.mpr ⟨l, hmem, hskip _⟩

/-- Witness for the amended C6 at the serving one-listener server. -/
theorem C6_amended_witness :
    addTLSCertificate servingServer (.ok sampleCert)
      = .ok (addTLSCert servingServer sampleCert) ∧
    servingListener ∈ (addTLSCert servingServer sampleCert).listeners.listeners :=
  ⟨(C6_amended_silent_skip servingServer sampleCert servingListener (by decide) (by decide)).1,
   (C6_amended_silent_skip servingServer sampleCert servingListener
      (by decide) (by decide)).2.2⟩

/-- C8 counterexample: a listener already marked `Detached` (and not
closing) is processed again by `detach`: its address appears in the
returned map, contradicting the claimed exclusion. -/
theorem C8_counterexample :
    detachedOnlyListener.state &&& stateDetached ≠ 0 ∧
    (listenersDetach detachedOnlyRegistry).fst = [("127.0.0.1:44381", 5)] := by
  decide

/-- C8 amended: `detach` processes exactly the listeners whose state does
not include `Closing` — including ones already `Detached` — marking each
`Detached` and mapping its address to its descriptor, while listeners
whose state includes `Closing` are excluded and left unmodified. -/
theorem C8_amended_detach_filter (l : Listener) :
    (l.state &&& stateClosing = 0 →
      detachStep l = { l with state := l.state ||| stateDetached } ∧
      detachPair l = some (l.addr, l.fd)) ∧
    (l.state &&& stateClosing ≠ 0 → detachStep l = l ∧ detachPair l = none) := by
  constructor
  · intro h
    exact ⟨by simp [detachStep, h], by simp [detachPair, h]⟩
  · intro h
    exact ⟨by simp [detachStep, h], by simp [detachPair, h]⟩

/-- Witness for the amended C8: the already-detached listener is
processed again, the closing listener is excluded. -/
theorem C8_amended_witness :
    detachPair detachedOnlyListener
      = some (detachedOnlyListener.addr, detachedOnlyListener.fd) ∧
    detachPair closingListener = none :=
  ⟨((C8_amended_detach_filter detachedOnlyListener).1 (by decide)).2,
   ((C8_amended_detach_filter closingListener).2 (by decide)).2⟩

end GoServer

namespace V1

/-- C9 counterexample: with the first address binding successfully and
the second failing, `ListenAndServeTLS` returns the bind error for the
second address while the listener bound for the first address remains
tracked — a partial listener set is retained. -/
theorem C9_counterexample :
    (listenAndServeTLS (.ok ()) bind9 ["127.0.0.1:44380", "127.0.0.1:44381"]
        Registry.empty).fst = some (StartError.bindError "127.0.0.1:44381") ∧
    (listenAndServeTLS (.ok ()) bind9 ["127.0.0.1:44380", "127.0.0.1:44381"]
        Registry.empty).snd.listeners = [⟨"127.0.0.1:44380"⟩] := by
  decide

/-- C9 amended: when a bind fails partway through the address list, the
call aborts immediately with that address's bind error, but every
listener bound earlier in the same call remains watched: the collection
grows by exactly the successfully bound prefix. -/
theorem C9_amended_partial_listeners_retained (bind : String → Bool) (good : List String)
    (bad : String) (rest : List String) (r : Registry)
    (hgood : ∀ a ∈ good, bind a = true) (hbad : bind bad = false) :
    listenLoop bind (good ++ bad :: rest) r =
      (some (StartError.bindError bad), good.foldl (fun acc a => watch acc ⟨a⟩) r) ∧
    (good.foldl (fun acc a => watch acc ⟨a⟩) r).listeners.length
      = r.listeners.length + good.length := by
  revert hgood
  induction good generalizing r with
  | nil =>
    intro _
    refine ⟨?_, by simp⟩
    simp [listenLoop, hbad]
  | cons a g ih =>
    intro hgood
    have ha : bind a = true := hgood a (List.mem_cons_self a g)
    have hg : ∀ x ∈ g, bind x = true := fun x hx => hgood x (List.mem_cons_of_mem a hx)
    refine ⟨?_, ?_⟩
    · simp only [List.cons_append, listenLoop, ha, if_true, List.foldl_cons]
      exact (ih (watch r ⟨a⟩) hg).1
    · simp only [List.foldl_cons]
      rw [(ih (watch r ⟨a⟩) hg).2]
      simp [watch]
      omega

/-- Witness for the amended C9 on the two test addresses. -/
theorem C9_amended_witness :
    listenLoop bind9 ["127.0.0.1:44380", "127.0.0.1:44381"] Registry.empty
      = (some (StartError.bindError "127.0.0.1:44381"), ⟨[⟨"127.0.0.1:44380"⟩], 1⟩) := by
  have h := C9_amended_partial_listeners_retained bind9 ["127.0.0.1:44380"]
    "127.0.0.1:44381" [] Registry.empty (by decide) (by decide)
  exact h.1

end V1
